import Mathlib

/-!
Verification development for the react-native fetch implementation.

The JavaScript sources embedded here:
  * `src/Body.js` — the `Body` consumption state machine and the
    `StreamBlobResponse` specialization;
  * `src/Request.js` — `Request` construction, input hand-over and `clone`;
  * `src/utils.js` — `createBlobReader`, `drainStream`, `readArrayAsText`;
  * `src/Fetch.js` — the transport engine bridging native network events
    to a promise outcome and a byte stream.

`Headers.js` and `Response.js` are not part of the sources; the definitions
for them below are modelled from the specification (their doc comments say
so) and are kept to exactly what the embedded code needs.

Modelling conventions: JavaScript strings are Lean `String`s (sequences of
code points), byte payloads are `List Nat`, `ArrayBuffer` aliasing is made
explicit through a `Store` of buffers addressed by index, asynchronous
methods are functions returning `Except JsError`, and a promise that can be
settled at most once is a three-state `PromiseState`.  Host functions with
no bearing on the claims (`JSON.parse`, `decodeURIComponent`) are taken as
parameters of the methods that call them.
-/

namespace RNFetch

/-- Bytes of an `ArrayBuffer` / typed array / blob payload. -/
abbrev Bytes := List Nat

/-- Error taxonomy: each constructor stands for one concrete error the
embedded JavaScript can throw or reject with.  The constructor names follow
the spec taxonomy; the comments give the exact JS error. -/
inductive JsError where
  /-- Embeds `TypeError("Already read")` in `Request`, `Promise.reject(new Error("Already read"))` in `Body.__consumed`. -/
  | alreadyRead
  /-- Embeds `TypeError("Body not allowed for GET or HEAD requests")`. -/
  | bodyNotAllowed
  /-- Embeds `TypeError("Streaming request bodies is not supported")`. -/
  | streamingBodyUnsupported
  /-- Embeds `TypeError` from header name validation (modelled from the spec). -/
  | invalidHeaderName
  /-- Embeds `Error("Could not read FormData body as text")`. -/
  | formDataAsText
  /-- Embeds `Error("Could not read FormData body as blob")`. -/
  | formDataAsBlob
  /-- Embeds `SyntaxError` surfaced by `JSON.parse`. -/
  | syntaxError
  /-- Embeds `URIError` surfaced by `decodeURIComponent`. -/
  | uriError
  /-- Embeds `AbortError` (name `"AbortError"`). -/
  | abortError
  /-- Embeds `Error("Network request timed out")`. -/
  | networkTimeout
  /-- Embeds `Error("Network request failed: ...")`. -/
  | networkFailed
  /-- Embeds `TypeError` raised by calling a member that is `undefined`
  (for example `.slice` on a `Response`, `.error` on an unassigned field,
  `.has` on a plain object). -/
  | notAFunction
  deriving DecidableEq, Repr

/-- The store of live `ArrayBuffer` objects: index = object identity.
Mutating one buffer never touches another index, which is exactly the
aliasing question the frame claims are about. -/
structure Store where
  bufs : List Bytes
  deriving DecidableEq, Repr

/-- Read a buffer by identity (missing index reads as empty). -/
def Store.read (st : Store) (id : Nat) : Bytes :=
  st.bufs.getD id []

/-- Overwrite the contents of buffer `id` — the caller mutating its own
`ArrayBuffer` after handing it to a `Body`. -/
def Store.write (st : Store) (id : Nat) (b : Bytes) : Store :=
  ⟨st.bufs.set id b⟩

/-- Allocate a fresh buffer holding `b`; returns the new store and the new
buffer's identity. -/
def Store.alloc (st : Store) (b : Bytes) : Store × Nat :=
  (⟨st.bufs ++ [b]⟩, st.bufs.length)

/-- A reference to binary data as the JS code holds it: either a whole
`ArrayBuffer`, or a typed-array view `(buffer, byteOffset, byteLength)`. -/
inductive BufRef where
  | whole (id : Nat)
  | view (id off len : Nat)
  deriving DecidableEq, Repr

/-- The bytes a reference denotes in a given store: a view denotes the
`byteLength` bytes starting at `byteOffset` of its underlying buffer. -/
def BufRef.bytes (st : Store) : BufRef → Bytes
  | .whole id => st.read id
  | .view id off len => ((st.read id).drop off).take len

/-- UTF-8 encoding of one code point (what `TextEncoder.prototype.encode`
produces per character). -/
def utf8EncodeChar (c : Nat) : Bytes :=
  if c < 0x80 then [c]
  else if c < 0x800 then [0xC0 + c / 64, 0x80 + c % 64]
  else if c < 0x10000 then [0xE0 + c / 4096, 0x80 + c / 64 % 64, 0x80 + c % 64]
  else [0xF0 + c / 262144, 0x80 + c / 4096 % 64, 0x80 + c / 64 % 64, 0x80 + c % 64]

/-- UTF-8 encoding of a sequence of code points. -/
def utf8EncodeList (l : List Char) : Bytes :=
  (l.map fun c => utf8EncodeChar c.toNat).flatten

/-- UTF-8 encoding of a string (`TextEncoder.prototype.encode`). -/
def utf8Encode (s : String) : Bytes :=
  utf8EncodeList s.data

/-- Continuation-byte check used by the UTF-8 decoder: `l` consists of
exactly `n` bytes of the form `10xxxxxx`. -/
def utf8ContOk (l : Bytes) (n : Nat) : Bool :=
  l.length = n && l.all fun c => 0x80 ≤ c && c < 0xC0

/-- Value contributed by a run of continuation bytes. -/
def utf8ContVal (l : Bytes) : Nat :=
  l.foldl (fun a c => a * 64 + (c - 0x80)) 0

/-- Fuel-indexed worker for the UTF-8 decoder; the fuel starts at the list
length so the zero-fuel branch is never reached. -/
def utf8DecodeGo : Nat → Bytes → List Char
  | _, [] => []
  | 0, _ :: _ => []
  | fuel + 1, b :: bs =>
    if b < 0x80 then
      Char.ofNat b :: utf8DecodeGo fuel bs
    else if 0xC0 ≤ b && b < 0xE0 && utf8ContOk (bs.take 1) 1 then
      Char.ofNat ((b - 0xC0) * 64 + utf8ContVal (bs.take 1)) ::
        utf8DecodeGo fuel (bs.drop 1)
    else if 0xE0 ≤ b && b < 0xF0 && utf8ContOk (bs.take 2) 2 then
      Char.ofNat ((b - 0xE0) * 4096 + utf8ContVal (bs.take 2)) ::
        utf8DecodeGo fuel (bs.drop 2)
    else if 0xF0 ≤ b && b < 0xF8 && utf8ContOk (bs.take 3) 3 then
      Char.ofNat ((b - 0xF0) * 262144 + utf8ContVal (bs.take 3)) ::
        utf8DecodeGo fuel (bs.drop 3)
    else
      Char.ofNat 0xFFFD :: utf8DecodeGo fuel bs

/-- UTF-8 decoding (`TextDecoder.prototype.decode`): reads one code point
per step, emitting U+FFFD for malformed input (which then resumes at the
very next byte). -/
def utf8DecodeList (l : Bytes) : List Char :=
  utf8DecodeGo l.length l

/-- Embeds `readArrayAsText` from `utils.js`: `new TextDecoder().decode(array)`. -/
def readArrayAsText (b : Bytes) : String :=
  ⟨utf8DecodeList b⟩

/-- An opaque large-object handle as delivered by the blob store:
its bytes and its MIME type.  The blob store itself (reference counting,
native transfer) is an external collaborator. -/
structure BlobV where
  data : Bytes
  type : String
  deriving DecidableEq, Repr

/-- Modelled from the spec: `Headers.js` is not under `src/`.  A HeaderTable
is an ordered sequence of `(lowercased name, value)` entries, first-occurrence
order, with same-name values concatenated with `", "` (spec §3, §4.1). -/
structure HeadersV where
  entries : List (String × String)
  deriving DecidableEq, Repr

/-- Modelled from the spec: header-name validation — an HTTP token, so
non-empty and free of control characters, separators such as `:`, and
enclosing brackets (spec §3; the test suite rejects `"[Accept]"`,
`"Accept:"` and `""`). -/
def validHeaderName (s : String) : Bool :=
  !s.isEmpty && s.data.all fun c =>
    c.toNat > 0x20 && c.toNat < 0x7F &&
    !([':', ';', ',', '[', ']', '(', ')', '<', '>', '@', '?', '=',
       '\x7b', '\x7d', '/', '\\', '"'].contains c)

/-- Case folding of a header name (JavaScript `String.prototype.toLowerCase`
restricted to what header tokens need), written on the character list. -/
def lowerName (s : String) : String :=
  ⟨s.data.map Char.toLower⟩

/-- Modelled from the spec: `Headers.prototype.has`, case-insensitive. -/
def HeadersV.has (h : HeadersV) (name : String) : Bool :=
  h.entries.any fun e => e.1 == lowerName name

/-- Modelled from the spec: `Headers.prototype.append` — validate, fold the
name to lowercase, concatenate onto an existing entry or insert at the
end. -/
def HeadersV.append (h : HeadersV) (name value : String) :
    Except JsError HeadersV := do
  if !validHeaderName name then
    throw .invalidHeaderName
  let lname := lowerName name
  if h.has name then
    .ok ⟨h.entries.map fun e =>
      if e.1 == lname then (e.1, e.2 ++ ", " ++ value) else e⟩
  else
    .ok ⟨h.entries ++ [(lname, value)]⟩

/-- Modelled from the spec: `Headers.prototype.set` — validate, replace in
place or insert at the end. -/
def HeadersV.set (h : HeadersV) (name value : String) :
    Except JsError HeadersV := do
  if !validHeaderName name then
    throw .invalidHeaderName
  let lname := lowerName name
  if h.has name then
    .ok ⟨h.entries.map fun e => if e.1 == lname then (e.1, value) else e⟩
  else
    .ok ⟨h.entries ++ [(lname, value)]⟩

/-- Modelled from the spec: `Headers.prototype.get` — the folded value or
the null sentinel. -/
def HeadersV.get (h : HeadersV) (name : String) : Option String :=
  (h.entries.find? fun e => e.1 == lowerName name).map (·.2)

/-- What a caller may pass as a headers option: another Headers object, or
a plain name-to-value record. -/
inductive HeadersInit where
  | obj (h : HeadersV)
  | record (ps : List (String × String))
  deriving DecidableEq, Repr

/-- Modelled from the spec: the `Headers` constructor — a deep, independent
copy of another table, or a record inserted pairwise under `append`
validation; absent argument gives an empty table. -/
def HeadersV.create (init : Option HeadersInit) : Except JsError HeadersV :=
  match init with
  | none => .ok ⟨[]⟩
  | some (.obj h) => .ok ⟨h.entries⟩
  | some (.record ps) =>
    ps.foldlM (fun (h : HeadersV) p => h.append p.1 p.2) (⟨[]⟩ : HeadersV)

/-- The value `this.headers` actually holds after `Request` construction:
the source assigns `options.headers` directly in `__handleRequestInput`, so
alongside a proper Headers instance it can hold a raw (non-Headers) record
on which later method calls throw. -/
inductive HeadersSlot where
  | inst (h : HeadersV)
  | raw (ps : List (String × String))
  deriving DecidableEq, Repr

/-- The raw payload accepted by the `Body` constructor, one constructor per
`instanceof` branch of `src/Body.js` (spec §9 models them as a closed
tagged variant).  `undef` covers the absent/null case; an empty string is
likewise falsy for the constructor's first branch. -/
inductive BodyInit where
  | undef
  | str (s : String)
  | blob (b : BlobV)
  | formData (fields : List (String × String))
  | urlSearchParams (s : String)
  | arrayBuffer (id : Nat)
  | view (id off len : Nat)
  | stream (chunks : List Bytes)
  deriving DecidableEq, Repr

/-- JavaScript truthiness of a body-init value, as tested by
`if (!body)` in the `Body` constructor and by `!options.body` /
`request._body._bodyInit` in `Request`. -/
def BodyInit.truthy : BodyInit → Bool
  | .undef => false
  | .str s => !s.isEmpty
  | _ => true

/-- Embeds `Body` from `src/Body.js`: `bodyUsed` plus the at-most-one populated
variant field, mirroring the instance fields of the class. -/
structure Body where
  bodyUsed : Bool
  _bodyInit : BodyInit
  _bodyText : Option String := none
  _bodyBlob : Option BlobV := none
  _bodyFormData : Option (List (String × String)) := none
  _bodyArrayBuffer : Option BufRef := none
  _bodyReadableStream : Option (List Bytes) := none
  _mimeType : Option String := none
  deriving DecidableEq, Repr

/-- The `Body(body)` constructor.  Branches in source order; buffer inits
are copied at once via `body.slice(0)` (a typed-array/buffer copy into a
freshly allocated buffer), which is why the store is threaded. -/
def Body.create (st : Store) (body : BodyInit) : Store × Body :=
  if !body.truthy && (match body with | .str _ => true | .undef => true | _ => false) then
    (st, { bodyUsed := false, _bodyInit := body, _bodyText := some "" })
  else
    match body with
    | .blob b =>
      (st, { bodyUsed := false, _bodyInit := body, _bodyBlob := some b,
             _mimeType := some b.type })
    | .formData fs =>
      (st, { bodyUsed := false, _bodyInit := body, _bodyFormData := some fs,
             _mimeType := some ("multipart/form-data") })
    | .urlSearchParams s =>
      (st, { bodyUsed := false, _bodyInit := body, _bodyText := some s,
             _mimeType := some ("application/x-www-form-urlencoded;charset=UTF-8") })
    | .arrayBuffer id =>
      let (st1, nid) := st.alloc (st.read id)
      (st1, { bodyUsed := false, _bodyInit := body,
              _bodyArrayBuffer := some (.whole nid),
              _mimeType := some ("application/octet-stream") })
    | .view id off len =>
      let (st1, nid) := st.alloc (BufRef.bytes st (.view id off len))
      (st1, { bodyUsed := false, _bodyInit := body,
              _bodyArrayBuffer := some (.view nid 0 len),
              _mimeType := some ("application/octet-stream") })
    | .stream chunks =>
      (st, { bodyUsed := false, _bodyInit := body,
             _bodyReadableStream := some chunks,
             _mimeType := some ("application/octet-stream") })
    | .str s =>
      (st, { bodyUsed := false, _bodyInit := body, _bodyText := some s,
             _mimeType := some ("text/plain;charset=UTF-8") })
    | .undef =>
      (st, { bodyUsed := false, _bodyInit := body, _bodyText := some "" })

/-- Embeds `Body.prototype.__consumed`: when already used, a rejected promise;
otherwise flip `bodyUsed` to `true` (the one and only transition). -/
def Body.__consumed (b : Body) : Body × Option JsError :=
  if b.bodyUsed then (b, some .alreadyRead)
  else ({ b with bodyUsed := true }, none)

/-- Embeds `drainStream` from `utils.js`: concatenate every chunk of the stream
into one contiguous typed array. -/
def drainStream (chunks : List Bytes) : Bytes :=
  chunks.flatten

/-- Embeds `Body.prototype.blob`, in source branch order. -/
def Body.blob (st : Store) (b : Body) :
    Store × Body × Except JsError BlobV :=
  match b.__consumed with
  | (b1, some e) => (st, b1, .error e)
  | (b1, none) =>
    match b1._bodyBlob with
    | some bl => (st, b1, .ok bl)
    | none =>
      match b1._bodyReadableStream with
      | some chunks => (st, b1, .ok ⟨drainStream chunks, ""⟩)
      | none =>
        match b1._bodyArrayBuffer with
        | some r => (st, b1, .ok ⟨r.bytes st, ""⟩)
        | none =>
          match b1._bodyFormData with
          | some _ => (st, b1, .error .formDataAsBlob)
          | none => (st, b1, .ok ⟨utf8Encode (b1._bodyText.getD ""), ""⟩)

/-- Embeds `createBlobReader(blob).readAsArrayBuffer()` from `utils.js`: the
`FileReader` materializes the blob's bytes into a fresh `ArrayBuffer`. -/
def createBlobReaderAsArrayBuffer (st : Store) (bl : BlobV) : Store × BufRef :=
  let (st1, nid) := st.alloc bl.data
  (st1, .whole nid)

/-- Embeds `Body.prototype.arrayBuffer`, in source branch order.  For the blob and
text variants the source first marks the body consumed and then awaits
`this.blob()`, whose own `__consumed` check now rejects — that call is
embedded as written. -/
def Body.arrayBuffer (st : Store) (b : Body) :
    Store × Body × Except JsError BufRef :=
  match b.__consumed with
  | (b1, some e) => (st, b1, .error e)
  | (b1, none) =>
    match b1._bodyReadableStream with
    | some chunks =>
      let (st1, nid) := st.alloc (drainStream chunks)
      (st1, b1, .ok (.whole nid))
    | none =>
      match b1._bodyArrayBuffer with
      | some (.view id off len) =>
        let (st1, nid) := st.alloc (((st.read id).drop off).take (off + len - off))
        (st1, b1, .ok (.whole nid))
      | some (.whole id) => (st, b1, .ok (.whole id))
      | none =>
        match Body.blob st b1 with
        | (st1, b2, .error e) => (st1, b2, .error e)
        | (st1, b2, .ok bl) =>
          let (st2, r) := createBlobReaderAsArrayBuffer st1 bl
          (st2, b2, .ok r)

/-- Embeds `Body.prototype.text`, in source branch order (`createBlobReader(...)
.readAsText()` reads the blob's bytes as UTF-8). -/
def Body.text (st : Store) (b : Body) :
    Store × Body × Except JsError String :=
  match b.__consumed with
  | (b1, some e) => (st, b1, .error e)
  | (b1, none) =>
    match b1._bodyReadableStream with
    | some chunks => (st, b1, .ok (readArrayAsText (drainStream chunks)))
    | none =>
      match b1._bodyBlob with
      | some bl => (st, b1, .ok (readArrayAsText bl.data))
      | none =>
        match b1._bodyArrayBuffer with
        | some r => (st, b1, .ok (readArrayAsText (r.bytes st)))
        | none =>
          match b1._bodyFormData with
          | some _ => (st, b1, .error .formDataAsText)
          | none => (st, b1, .ok (b1._bodyText.getD ""))

/-- JSON values, the result type of the host's `JSON.parse`. -/
inductive JsValue where
  | null
  | bool (b : Bool)
  | num (n : Int)
  | str (s : String)
  | arr (xs : List JsValue)
  | obj (fs : List (String × JsValue))

/-- Embeds `Body.prototype.json`: `JSON.parse(await this.text())`.  The host
parser is a parameter; it rejects with `SyntaxError` on parse failure. -/
def Body.json (parse : String → Except JsError JsValue) (st : Store)
    (b : Body) : Store × Body × Except JsError JsValue :=
  match Body.text st b with
  | (st1, b1, .error e) => (st1, b1, .error e)
  | (st1, b1, .ok t) => (st1, b1, parse t)

/-- One `pairs` step of `Body.prototype.formData`'s forEach: skip empty
segments, split on the first `=`, turn `+` into spaces, percent-decode both
halves with the host's `decodeURIComponent` (a parameter, since it can
throw `URIError`). -/
def formDataStep (dec : String → Except JsError String)
    (acc : List (String × String)) (pairs : String) :
    Except JsError (List (String × String)) := do
  if pairs.isEmpty then
    .ok acc
  else
    let split := pairs.splitOn ("=")
    let name := (split.headD ("")).map fun c => if c = '+' then ' ' else c
    let value := (String.intercalate ("=") (split.drop 1)).map
      fun c => if c = '+' then ' ' else c
    let dn ← dec name
    let dv ← dec value
    .ok (acc ++ [(dn, dv)])

/-- Embeds `Body.prototype.formData`: `text()`, trim, split on `&`, decode each
pair. -/
def Body.formData (dec : String → Except JsError String) (st : Store)
    (b : Body) : Store × Body × Except JsError (List (String × String)) :=
  match Body.text st b with
  | (st1, b1, .error e) => (st1, b1, .error e)
  | (st1, b1, .ok t) =>
    (st1, b1, (t.trim.splitOn ("&")).foldlM (formDataStep dec) [])

/-- The five conversion methods of the Body mixin. -/
inductive ConvMethod where
  | text
  | blob
  | arrayBuffer
  | json
  | formData
  deriving DecidableEq, Repr

/-- Sum of the values the five conversion methods can resolve with. -/
inductive ConvResult where
  | str (s : String)
  | blobV (b : BlobV)
  | buf (r : BufRef)
  | jsonV (v : JsValue)
  | fields (fs : List (String × String))

/-- Dispatch one conversion-method call on a `Body`. -/
def Body.invoke (parse : String → Except JsError JsValue)
    (dec : String → Except JsError String) (m : ConvMethod) (st : Store)
    (b : Body) : Store × Body × Except JsError ConvResult :=
  match m with
  | .text =>
    let (st1, b1, r) := Body.text st b
    (st1, b1, r.map .str)
  | .blob =>
    let (st1, b1, r) := Body.blob st b
    (st1, b1, r.map .blobV)
  | .arrayBuffer =>
    let (st1, b1, r) := Body.arrayBuffer st b
    (st1, b1, r.map .buf)
  | .json =>
    let (st1, b1, r) := Body.json parse st b
    (st1, b1, r.map .jsonV)
  | .formData =>
    let (st1, b1, r) := Body.formData dec st b
    (st1, b1, r.map .fields)

/-- Run a sequence of conversion-method calls on one `Body`, collecting
each call's outcome in order. -/
def runMethods (parse : String → Except JsError JsValue)
    (dec : String → Except JsError String) (st : Store) (b : Body) :
    List ConvMethod → Store × Body × List (Except JsError ConvResult)
  | [] => (st, b, [])
  | m :: ms =>
    let (st1, b1, r) := Body.invoke parse dec m st b
    let (st2, b2, rs) := runMethods parse dec st1 b1 ms
    (st2, b2, r :: rs)

/-- Options accepted by the `Response` constructor. -/
structure ResponseOptions where
  status : Option Nat := none
  statusText : Option String := none
  headers : Option HeadersInit := none
  url : Option String := none
  deriving DecidableEq, Repr

/-- Modelled from the spec: `Response.js` is not under `src/`.  A Response
composes a Body with status (default 200), statusText (default empty),
copied Headers, url and type, and carries the same content-type defaulting
as Request construction (spec §4.3, §6). -/
structure Response where
  _body : Body
  headers : HeadersV
  status : Nat
  statusText : String
  url : String
  type : String
  deriving DecidableEq, Repr

/-- Modelled from the spec: the `Response` constructor — Body built exactly
as for Request (without the GET/HEAD restriction), status defaulting to 200
also for an explicit undefined, content-type defaulted from the Body's
inferred MIME type. -/
def Response.create (st : Store) (body : BodyInit) (o : ResponseOptions) :
    Except JsError (Store × Response) := do
  let (st1, b) := Body.create st body
  let h ← HeadersV.create o.headers
  let h2 ←
    if !h.has ("content-type") then
      match b._mimeType with
      | some m => h.set ("content-type") m
      | none => pure h
    else pure h
  .ok (st1, { _body := b, headers := h2, status := o.status.getD 200,
              statusText := o.statusText.getD (""), url := o.url.getD (""),
              type := "default" })

/-- Embeds `Response.prototype.text` (delegation to the Body). -/
def Response.text (st : Store) (r : Response) :
    Store × Response × Except JsError String :=
  let (st1, b1, res) := Body.text st r._body
  (st1, { r with _body := b1 }, res)

/-- Embeds `Response.prototype.blob` (delegation to the Body). -/
def Response.blob (st : Store) (r : Response) :
    Store × Response × Except JsError BlobV :=
  let (st1, b1, res) := Body.blob st r._body
  (st1, { r with _body := b1 }, res)

/-- Embeds `Response.prototype.arrayBuffer` (delegation to the Body). -/
def Response.arrayBuffer (st : Store) (r : Response) :
    Store × Response × Except JsError BufRef :=
  let (st1, b1, res) := Body.arrayBuffer st r._body
  (st1, { r with _body := b1 }, res)

/-- Embeds `Response.prototype.json` (delegation to the Body). -/
def Response.json (parse : String → Except JsError JsValue) (st : Store)
    (r : Response) : Store × Response × Except JsError JsValue :=
  let (st1, b1, res) := Body.json parse st r._body
  (st1, { r with _body := b1 }, res)

/-- Embeds `Response.prototype.formData` (delegation to the Body). -/
def Response.formData (dec : String → Except JsError String) (st : Store)
    (r : Response) : Store × Response × Except JsError (List (String × String)) :=
  let (st1, b1, res) := Body.formData dec st r._body
  (st1, { r with _body := b1 }, res)

/-- Embeds `StreamBlobResponse` from `src/Body.js`: one blob payload backing three
internal Responses — a blob view, a stream view and a buffer view. -/
structure StreamBlobResponse where
  _blobData : BlobV
  _blobResponse : Response
  _streamResponse : Response
  _arrayBufferResponse : Response
  _blobArrayBuffer : Bytes
  deriving DecidableEq, Repr

/-- The `StreamBlobResponse` constructor.  The stream argument arrives
empty and the constructor enqueues the materialized buffer as its one and
only chunk, so the stream Response is built over `[buf]`; when no
pre-materialized buffer is supplied the blob is read fully through the
blob reader (the promise-returning branch of the source). -/
def StreamBlobResponse.create (st : Store) (blobData : BlobV)
    (options : ResponseOptions) (blobArrayBuffer : Option Bytes) :
    Except JsError (Store × StreamBlobResponse) := do
  let (st1, blobResp) ← Response.create st (.blob blobData) options
  let buf := blobArrayBuffer.getD blobData.data
  let (st2, streamResp) ← Response.create st1 (.stream [buf]) options
  let (st3, bid) := st2.alloc buf
  let (st4, bufResp) ← Response.create st3 (.arrayBuffer bid) options
  .ok (st4, { _blobData := blobData, _blobResponse := blobResp,
              _streamResponse := streamResp, _arrayBufferResponse := bufResp,
              _blobArrayBuffer := buf })

/-- Embeds `StreamBlobResponse.prototype.bodyUsed`: the disjunction of the three
internal Responses' flags. -/
def StreamBlobResponse.bodyUsed (r : StreamBlobResponse) : Bool :=
  r._blobResponse._body.bodyUsed || r._streamResponse._body.bodyUsed ||
    r._arrayBufferResponse._body.bodyUsed

/-- Embeds `StreamBlobResponse.prototype.blob`: delegates to the blob view. -/
def StreamBlobResponse.blob (st : Store) (r : StreamBlobResponse) :
    Store × StreamBlobResponse × Except JsError BlobV :=
  let (st1, br, res) := Response.blob st r._blobResponse
  (st1, { r with _blobResponse := br }, res)

/-- Embeds `StreamBlobResponse.prototype.text`: delegates to the buffer view. -/
def StreamBlobResponse.text (st : Store) (r : StreamBlobResponse) :
    Store × StreamBlobResponse × Except JsError String :=
  let (st1, br, res) := Response.text st r._arrayBufferResponse
  (st1, { r with _arrayBufferResponse := br }, res)

/-- Embeds `StreamBlobResponse.prototype.arrayBuffer`: delegates to the buffer
view. -/
def StreamBlobResponse.arrayBuffer (st : Store) (r : StreamBlobResponse) :
    Store × StreamBlobResponse × Except JsError BufRef :=
  let (st1, br, res) := Response.arrayBuffer st r._arrayBufferResponse
  (st1, { r with _arrayBufferResponse := br }, res)

/-- Embeds `StreamBlobResponse.prototype.json`: delegates to the buffer view. -/
def StreamBlobResponse.json (parse : String → Except JsError JsValue)
    (st : Store) (r : StreamBlobResponse) :
    Store × StreamBlobResponse × Except JsError JsValue :=
  let (st1, br, res) := Response.json parse st r._arrayBufferResponse
  (st1, { r with _arrayBufferResponse := br }, res)

/-- Embeds `StreamBlobResponse.prototype.formData`: delegates to the buffer
view. -/
def StreamBlobResponse.formData (dec : String → Except JsError String)
    (st : Store) (r : StreamBlobResponse) :
    Store × StreamBlobResponse × Except JsError (List (String × String)) :=
  let (st1, br, res) := Response.formData dec st r._arrayBufferResponse
  (st1, { r with _arrayBufferResponse := br }, res)

/-- The member expression `this._arrayBufferResponse.slice(0)` evaluated in
`StreamBlobResponse.prototype.clone`: `Response` declares no `slice`
method, so the member is `undefined` and calling it throws a `TypeError`
(the adjacent field `_blobArrayBuffer` does hold an `ArrayBuffer` with a
`slice`). -/
def Response.slice (_r : Response) (_n : Nat) : Except JsError Bytes :=
  .error .notAFunction

/-- Embeds `StreamBlobResponse.prototype.clone`: re-derives a fresh stream and
constructs a new `StreamBlobResponse` over the same blob descriptor, copied
headers, and the buffer produced by `this._arrayBufferResponse.slice(0)` —
which throws, see `Response.slice`. -/
def StreamBlobResponse.clone (st : Store) (r : StreamBlobResponse) :
    Except JsError (Store × StreamBlobResponse) := do
  let buf ← Response.slice r._arrayBufferResponse 0
  StreamBlobResponse.create st r._blobData
    { status := some r._blobResponse.status,
      statusText := some r._blobResponse.statusText,
      headers := some (.obj r._blobResponse.headers),
      url := some r._blobResponse.url }
    (some buf)

/-- A cancellation signal as the Request/Fetch code observes it: only its
`aborted` flag is read synchronously; the abort *event* is a trace action
of the transport engine model. -/
structure Signal where
  aborted : Bool
  deriving DecidableEq, Repr

/-- Options accepted by the `Request` constructor. -/
structure RequestOptions where
  method : Option String := none
  headers : Option HeadersInit := none
  body : BodyInit := .undef
  credentials : Option String := none
  signal : Option Signal := none
  deriving DecidableEq, Repr

/-- Embeds `Request` from `src/Request.js`. -/
structure Request where
  url : String
  method : String
  credentials : String
  headers : HeadersSlot
  signal : Option Signal
  _body : Body
  deriving DecidableEq, Repr

/-- The `input` argument of the `Request` constructor: a url-like value
(anything else is coerced through its string conversion) or another
Request. -/
inductive RequestInput where
  | url (s : String)
  | request (r : Request)
  deriving DecidableEq, Repr

/-- Lines 16–34 of the `Request` constructor, shared by both input shapes:
`this._body = this._body ?? new Body(options.body)`, the method default
(note: no uppercasing in the source), the GET/HEAD body check, the
streaming-body check, credentials and headers defaulting, the signal, and
the content-type defaulting (which calls `.has` on whatever the headers
slot holds — a raw record would make that call throw).  `inherited`
arguments are what `__handleRequestInput` pre-assigned, `src` is the
(possibly mutated) source Request handed back to the caller. -/
def Request.finishCreate (st : Store) (url : String)
    (method0 credentials0 : Option String) (signal0 : Option Signal)
    (headers0 : Option HeadersSlot) (body0 : Option Body)
    (options : RequestOptions) (src : Option Request) :
    Except JsError (Store × Option Request × Request) := do
  let (st1, body) :=
    match body0 with
    | some b => (st, b)
    | none => Body.create st options.body
  let method := options.method.getD (method0.getD ("GET"))
  if body._bodyInit.truthy && (method == "GET" || method == "HEAD") then
    throw .bodyNotAllowed
  if body._bodyReadableStream.isSome then
    throw .streamingBodyUnsupported
  let credentials := options.credentials.getD (credentials0.getD ("same-origin"))
  let headers1 : HeadersSlot ←
    match headers0 with
    | some hs => pure hs
    | none => do
      let h ← HeadersV.create options.headers
      pure (HeadersSlot.inst h)
  let signal := options.signal.orElse fun _ => signal0
  let headers2 : HeadersSlot ←
    match headers1 with
    | .raw _ => throw .notAFunction
    | .inst h =>
      if !h.has ("content-type") then
        match body._mimeType with
        | some m => do
          let h2 ← h.set ("content-type") m
          pure (HeadersSlot.inst h2)
        | none => pure (HeadersSlot.inst h)
      else pure (HeadersSlot.inst h)
  .ok (st1, src, { url := url, method := method, credentials := credentials,
                   headers := headers2, signal := signal, _body := body })

/-- The `Request(input, options)` constructor.  For a Request input it
first fails with the already-read error when the source Body is consumed,
then runs `__handleRequestInput`: copy url/credentials/method/signal, take
`options.headers` verbatim or copy the source's headers, and — when
`options` carries no (truthy) body and the source holds a truthy body
init — rebuild a Body from that same init and mark the source's Body
consumed.  Returns the mutated source alongside the new Request. -/
def Request.create (st : Store) (input : RequestInput)
    (options : RequestOptions) :
    Except JsError (Store × Option Request × Request) := do
  match input with
  | .request r =>
    if r._body.bodyUsed then
      throw .alreadyRead
    let headers0 : HeadersSlot ←
      match options.headers with
      | some (.obj h) => pure (HeadersSlot.inst h)
      | some (.record ps) => pure (HeadersSlot.raw ps)
      | none =>
        match r.headers with
        | .inst h => pure (HeadersSlot.inst ⟨h.entries⟩)
        | .raw ps => do
          let h ← HeadersV.create (some (.record ps))
          pure (HeadersSlot.inst h)
    if !options.body.truthy && r._body._bodyInit.truthy then
      let (st1, nb) := Body.create st r._body._bodyInit
      let src := { r with _body := { r._body with bodyUsed := true } }
      Request.finishCreate st1 r.url (some r.method) (some r.credentials)
        r.signal (some headers0) (some nb) options (some src)
    else
      Request.finishCreate st r.url (some r.method) (some r.credentials)
        r.signal (some headers0) none options (some r)
  | .url u =>
    Request.finishCreate st u none none none none none options none

/-- Embeds `Request.prototype.clone`:
`new Request(this, { body: this._body._bodyInit })`. -/
def Request.clone (st : Store) (r : Request) :
    Except JsError (Store × Option Request × Request) :=
  Request.create st (.request r) { body := r._body._bodyInit }

/-- Embeds `Request.prototype.text` (delegation to the Body). -/
def Request.text (st : Store) (r : Request) :
    Store × Request × Except JsError String :=
  let (st1, b1, res) := Body.text st r._body
  (st1, { r with _body := b1 }, res)

/-- The metadata of the Response the engine resolves with in
`__didReceiveNetworkResponse`; its Body is the engine's live byte stream,
whose state lives in `FetchState._streamController`. -/
structure EngineResponse where
  status : Nat
  headers : List (String × String)
  url : String
  deriving DecidableEq, Repr

/-- State of a `p-defer` deferred promise: settled at most once. -/
inductive PromiseState where
  | pending
  | resolved (r : EngineResponse)
  | rejected (e : JsError)
  deriving DecidableEq, Repr

/-- Embeds `resolve` on a deferred promise: a no-op once settled. -/
def PromiseState.resolveOnce (p : PromiseState) (r : EngineResponse) :
    PromiseState :=
  match p with
  | .pending => .resolved r
  | _ => p

/-- Embeds `reject` on a deferred promise: a no-op once settled. -/
def PromiseState.rejectOnce (p : PromiseState) (e : JsError) : PromiseState :=
  match p with
  | .pending => .rejected e
  | _ => p

/-- State of the `ReadableStream` made by `createStream`, as driven through
its controller. -/
structure StreamState where
  chunks : List Bytes
  closed : Bool
  errored : Option JsError
  deriving DecidableEq, Repr

/-- The five event names of `__subscribeToNetworkEvents`. -/
def nativeEventNames : List String :=
  ["didReceiveNetworkResponse", "didReceiveNetworkData",
   "didReceiveNetworkIncrementalData", "didReceiveNetworkDataProgress",
   "didCompleteNetworkResponse"]

/-- One notification arriving at a `Fetch` instance: the five native
network events (delivered only while the subscriptions are alive), the
`onCreated` callback assigning the request identifier, and the firing of
the externally owned cancellation signal. -/
inductive NativeEvent where
  | created (id : Nat)
  | response (id status : Nat) (headers : List (String × String)) (url : String)
  | data (id : Nat) (payload : Bytes)
  | incremental (id : Nat) (text : String) (progress total : Nat)
  | progressEv (id loaded total : Nat)
  | complete (id : Nat) (errorMessage : Option String) (didTimeOut : Bool)
  | abortSignal
  deriving DecidableEq, Repr

/-- Instance state of one `Fetch`, field for field.  The payload of a
`data` event is the transferred bytes: the base64 decode (`toByteArray`)
and the blob-store read in `enqueueSingleChunk` both just materialize
them.  `_readableStreamController` is declared (it is read by `__abort`)
but no method of the class ever assigns it — the response handler stores
the controller in `_streamController` instead. -/
structure FetchState where
  _nativeNetworkSubscriptions : List String
  _nativeResponseType : String
  _nativeRequestHeaders : List (String × String)
  _nativeResponse : Option Bytes
  _responseTextOffset : Nat
  _requestId : Option Nat
  _response : Option EngineResponse
  _streamController : Option StreamState
  _readableStreamController : Option Unit
  _deferredPromise : PromiseState
  _request : Request
  _abortListenerAttached : Bool
  deriving DecidableEq, Repr

/-- The `Fetch` constructor up to and including `__doFetch`: build the
Request (its errors propagate), flatten its headers for the native call
(`.entries()` on a raw record slot would throw), fail at once with the
abort error when the signal is already aborted, then subscribe to the five
events, attach the abort listener (when a signal exists) and submit.  The
deferred outcome starts pending. -/
def fetchInit (st : Store) (resource : RequestInput)
    (options : RequestOptions) : Except JsError (Store × FetchState) := do
  let (st1, _src, req) ← Request.create st resource options
  let hdrs ←
    match req.headers with
    | .inst h => pure h.entries
    | .raw _ => throw .notAFunction
  if (match req.signal with | some sg => sg.aborted | none => false) then
    throw .abortError
  .ok (st1,
    { _nativeNetworkSubscriptions := nativeEventNames,
      _nativeResponseType := "blob",
      _nativeRequestHeaders := hdrs,
      _nativeResponse := none,
      _responseTextOffset := 0,
      _requestId := none,
      _response := none,
      _streamController := none,
      _readableStreamController := none,
      _deferredPromise := .pending,
      _request := req,
      _abortListenerAttached := req.signal.isSome })

/-- Process one event, returning the next state and the exception the
handler threw, if any.  The five network handlers run only while the
subscriptions are alive and each ignores identifiers other than its own.
The handlers mirror the source:

* `response`: create the stream (its cancel callback, driven by the
  caller, would clear the subscriptions and abort the native request),
  store the controller in `_streamController`, build the Response and
  resolve the outcome (a no-op if already settled);
* `data`: remember the single-shot payload;
* `incremental`: encode only the substring past `_responseTextOffset`,
  advance the offset to the full cumulative length, then enqueue (when no
  controller exists yet, the enqueue call itself throws after the offset
  was already advanced);
* `complete`: tear down subscriptions and the abort listener, reject on
  timeout or transport error (no-ops if already settled), otherwise
  enqueue the accumulated payload as the sole chunk and close the stream
  (the optional-chained close when there is no payload);
* `abortSignal` (`__abort`): abort the native request, clear the
  subscriptions, then call `.error` on `_readableStreamController` — a
  field never assigned anywhere, so the call throws and the remaining
  line, which would reject the outcome with the abort error, never runs.
  Were the field ever assigned, the handler would reject the outcome. -/
def Fetch.step (s : FetchState) (e : NativeEvent) :
    FetchState × Option JsError :=
  match e with
  | .created id => ({ s with _requestId := some id }, none)
  | .response id status headers url =>
    if s._nativeNetworkSubscriptions.isEmpty then (s, none)
    else if s._requestId ≠ some id then (s, none)
    else
      let er : EngineResponse := ⟨status, headers, url⟩
      ({ s with _streamController := some ⟨[], false, none⟩,
                _response := some er,
                _deferredPromise := s._deferredPromise.resolveOnce er },
       none)
  | .data id payload =>
    if s._nativeNetworkSubscriptions.isEmpty then (s, none)
    else if s._requestId ≠ some id then (s, none)
    else ({ s with _nativeResponse := some payload }, none)
  | .incremental id text _ _ =>
    if s._nativeNetworkSubscriptions.isEmpty then (s, none)
    else if s._requestId ≠ some id then (s, none)
    else
      let newText := text.data.drop s._responseTextOffset
      let typedArray := utf8EncodeList newText
      let s1 := { s with _responseTextOffset := text.data.length }
      match s1._streamController with
      | some c =>
        let c1 := { c with chunks := c.chunks ++ [typedArray] }
        ({ s1 with _streamController := some c1 }, none)
      | none => (s1, some .notAFunction)
  | .progressEv id _ _ =>
    if s._nativeNetworkSubscriptions.isEmpty then (s, none)
    else if s._requestId ≠ some id then (s, none)
    else (s, none)
  | .complete id errorMessage didTimeOut =>
    if s._nativeNetworkSubscriptions.isEmpty then (s, none)
    else if s._requestId ≠ some id then (s, none)
    else
      let s1 := { s with _nativeNetworkSubscriptions := [],
                         _abortListenerAttached := false }
      if didTimeOut then
        ({ s1 with _deferredPromise := s1._deferredPromise.rejectOnce .networkTimeout },
         none)
      else if errorMessage.isSome then
        ({ s1 with _deferredPromise := s1._deferredPromise.rejectOnce .networkFailed },
         none)
      else
        match s1._nativeResponse with
        | some payload =>
          match s1._streamController with
          | some c =>
            let c1 := { c with chunks := c.chunks ++ [payload], closed := true }
            ({ s1 with _streamController := some c1 }, none)
          | none => (s1, none)
        | none =>
          match s1._streamController with
          | some c =>
            let c1 := { c with closed := true }
            ({ s1 with _streamController := some c1 }, none)
          | none => (s1, none)
  | .abortSignal =>
    if !s._abortListenerAttached then (s, none)
    else
      let s1 := { s with _nativeNetworkSubscriptions := [] }
      match s1._readableStreamController with
      | none => (s1, some .notAFunction)
      | some _ =>
        ({ s1 with _deferredPromise := s1._deferredPromise.rejectOnce .abortError },
         none)

/-- Process a list of events in arrival order (exceptions a handler throws
escape to the host's event dispatcher and do not stop later events). -/
def Fetch.run (s : FetchState) (evs : List NativeEvent) : FetchState :=
  evs.foldl (fun a e => (Fetch.step a e).1) s

/-! ## Shared fixtures and lemmas -/

/-- The empty store used by the concrete evaluations below. -/
def st0 : Store := ⟨[]⟩

/-- A Body freshly constructed from the string of the spec's round-trip
property. -/
def bodyHello : Body := (Body.create st0 (.str ("Hello world!"))).2

/-- A trivial host JSON parser instantiation for witnesses. -/
def parse0 : String → Except JsError JsValue := fun _ => .ok .null

/-- A trivial host percent-decoder instantiation for witnesses. -/
def dec0 : String → Except JsError String := fun s => .ok s

/-- A fallback Body (never reached by the concrete fixtures). -/
def fallbackBody : Body := { bodyUsed := false, _bodyInit := .undef }

/-- A fallback Response (never reached by the concrete fixtures). -/
def fallbackResponse : Response :=
  { _body := fallbackBody, headers := ⟨[]⟩, status := 200, statusText := "",
    url := "", type := "default" }

/-- A concrete `StreamBlobResponse` over the two-byte blob `"hi"`, kept
together with the store its buffers live in. -/
def sbrSampleSt : Store × StreamBlobResponse :=
  match StreamBlobResponse.create st0 ⟨[104, 105], "text/plain"⟩ {}
      (some [104, 105]) with
  | .ok p => p
  | .error _ =>
    (st0, ⟨⟨[], ""⟩, fallbackResponse, fallbackResponse, fallbackResponse, []⟩)

/-- A consumed Body's `text` call rejects at once and changes nothing. -/
theorem Body.text_used (st : Store) (b : Body) (h : b.bodyUsed = true) :
    Body.text st b = (st, b, .error .alreadyRead) := by
  simp [Body.text, Body.__consumed, h]

/-- A consumed Body's `blob` call rejects at once and changes nothing. -/
theorem Body.blob_used (st : Store) (b : Body) (h : b.bodyUsed = true) :
    Body.blob st b = (st, b, .error .alreadyRead) := by
  simp [Body.blob, Body.__consumed, h]

/-- A consumed Body's `arrayBuffer` call rejects at once and changes
nothing. -/
theorem Body.arrayBuffer_used (st : Store) (b : Body) (h : b.bodyUsed = true) :
    Body.arrayBuffer st b = (st, b, .error .alreadyRead) := by
  simp [Body.arrayBuffer, Body.__consumed, h]

/-- A consumed Body's `json` call rejects at once and changes nothing. -/
theorem Body.json_used (parse : String → Except JsError JsValue) (st : Store)
    (b : Body) (h : b.bodyUsed = true) :
    Body.json parse st b = (st, b, .error .alreadyRead) := by
  simp [Body.json, Body.text_used st b h]

/-- A consumed Body's `formData` call rejects at once and changes
nothing. -/
theorem Body.formData_used (dec : String → Except JsError String) (st : Store)
    (b : Body) (h : b.bodyUsed = true) :
    Body.formData dec st b = (st, b, .error .alreadyRead) := by
  simp [Body.formData, Body.text_used st b h]

/-- Any conversion method on a consumed Body rejects with the already-read
error and leaves store and Body untouched. -/
theorem Body.invoke_used (parse : String → Except JsError JsValue)
    (dec : String → Except JsError String) (m : ConvMethod) (st : Store)
    (b : Body) (h : b.bodyUsed = true) :
    Body.invoke parse dec m st b = (st, b, .error .alreadyRead) := by
  cases m <;>
    simp [Body.invoke, Body.text_used st b h, Body.blob_used st b h,
      Body.arrayBuffer_used st b h, Body.json_used parse st b h,
      Body.formData_used dec st b h, Except.map]

/-- The first call of any conversion method irreversibly flips `bodyUsed`
to `true`, whether or not the call itself succeeds. -/
theorem Body.invoke_sets_used (parse : String → Except JsError JsValue)
    (dec : String → Except JsError String) (m : ConvMethod) (st : Store)
    (b : Body) (h : b.bodyUsed = false) :
    ((Body.invoke parse dec m st b).2.1).bodyUsed = true := by
  cases m <;>
    cases hs : b._bodyReadableStream <;> cases hb : b._bodyBlob <;>
    cases hf : b._bodyFormData <;>
    rcases ha : b._bodyArrayBuffer with _ | (⟨_⟩ | ⟨_, _, _⟩) <;>
    simp [Body.invoke, Body.text, Body.blob, Body.arrayBuffer, Body.json,
      Body.formData, Body.__consumed, h, hs, hb, ha, hf,
      Body.blob_used, Except.map]

/-- Running any sequence of conversion methods on a consumed Body yields
the already-read error at every position and never mutates anything. -/
theorem runMethods_used (parse : String → Except JsError JsValue)
    (dec : String → Except JsError String) :
    ∀ (ms : List ConvMethod) (st : Store) (b : Body), b.bodyUsed = true →
      runMethods parse dec st b ms =
        (st, b, ms.map fun _ => .error .alreadyRead)
  | [], st, b, _ => rfl
  | m :: ms, st, b, h => by
    simp only [runMethods, Body.invoke_used parse dec m st b h,
      runMethods_used parse dec ms st b h, List.map]

/-! ## C1 -/

/-- C1: for a plain Body, the first conversion call (of any kind) flips the
consumed flag to true once and for all and every later call, whatever the
method, fails with the already-read error while leaving state unchanged;
for a `StreamBlobResponse` the discipline holds per delegate view: `blob`
consumes only the internal blob Response and
`text`/`arrayBuffer`/`json`/`formData` consume only the internal buffer
Response, with repeat calls within a view failing with the already-read
error. -/
theorem C1_single_consumption_per_view
    (parse : String → Except JsError JsValue)
    (dec : String → Except JsError String) (st : Store) (b : Body)
    (m : ConvMethod) (ms : List ConvMethod) (st2 : Store)
    (sbr : StreamBlobResponse)
    (hb : b.bodyUsed = false)
    (h1 : sbr._blobResponse._body.bodyUsed = false)
    (h2 : sbr._arrayBufferResponse._body.bodyUsed = false) :
    (((Body.invoke parse dec m st b).2.1).bodyUsed = true ∧
      runMethods parse dec (Body.invoke parse dec m st b).1
        ((Body.invoke parse dec m st b).2.1) ms =
        ((Body.invoke parse dec m st b).1, (Body.invoke parse dec m st b).2.1,
          ms.map fun _ => .error .alreadyRead)) ∧
    (((StreamBlobResponse.blob st2 sbr).2.1)._blobResponse._body.bodyUsed
        = true ∧
      ((StreamBlobResponse.blob st2 sbr).2.1)._arrayBufferResponse
        = sbr._arrayBufferResponse ∧
      (StreamBlobResponse.blob (StreamBlobResponse.blob st2 sbr).1
        ((StreamBlobResponse.blob st2 sbr).2.1)).2.2 = .error .alreadyRead) ∧
    (((StreamBlobResponse.text st2 sbr).2.1)._arrayBufferResponse._body.bodyUsed
        = true ∧
      ((StreamBlobResponse.text st2 sbr).2.1)._blobResponse
        = sbr._blobResponse ∧
      (StreamBlobResponse.text (StreamBlobResponse.text st2 sbr).1
        ((StreamBlobResponse.text st2 sbr).2.1)).2.2 = .error .alreadyRead ∧
      (StreamBlobResponse.arrayBuffer (StreamBlobResponse.text st2 sbr).1
        ((StreamBlobResponse.text st2 sbr).2.1)).2.2 = .error .alreadyRead ∧
      (StreamBlobResponse.json parse (StreamBlobResponse.text st2 sbr).1
        ((StreamBlobResponse.text st2 sbr).2.1)).2.2 = .error .alreadyRead ∧
      (StreamBlobResponse.formData dec (StreamBlobResponse.text st2 sbr).1
        ((StreamBlobResponse.text st2 sbr).2.1)).2.2 = .error .alreadyRead) := by
  refine ⟨⟨Body.invoke_sets_used parse dec m st b hb, ?_⟩, ⟨?_, ?_, ?_⟩, ?_⟩
  · exact runMethods_used parse dec ms _ _
      (Body.invoke_sets_used parse dec m st b hb)
  · cases hsb : Body.blob st2 sbr._blobResponse._body with
    | mk st1 p =>
      have : (p.1).bodyUsed = true := by
        have := congrArg (fun t => t.2.1) hsb
        simp at this
        rw [← this]
        cases hs : sbr._blobResponse._body._bodyReadableStream <;>
        cases hbb : sbr._blobResponse._body._bodyBlob <;>
        cases ha : sbr._blobResponse._body._bodyArrayBuffer <;>
        cases hf : sbr._blobResponse._body._bodyFormData <;>
          simp [Body.blob, Body.__consumed, h1, hs, hbb, ha, hf]
      simp [StreamBlobResponse.blob, Response.blob, hsb, this]
  · simp [StreamBlobResponse.blob, Response.blob]
  · have hset : ((Body.blob st2 sbr._blobResponse._body).2.1).bodyUsed
        = true := by
      cases hs : sbr._blobResponse._body._bodyReadableStream <;>
      cases hbb : sbr._blobResponse._body._bodyBlob <;>
      cases ha : sbr._blobResponse._body._bodyArrayBuffer <;>
      cases hf : sbr._blobResponse._body._bodyFormData <;>
        simp [Body.blob, Body.__consumed, h1, hs, hbb, ha, hf]
    simp [StreamBlobResponse.blob, Response.blob,
      Body.blob_used _ _ hset]
  · have hset : ((Body.text st2 sbr._arrayBufferResponse._body).2.1).bodyUsed
        = true := by
      cases hs : sbr._arrayBufferResponse._body._bodyReadableStream <;>
      cases hbb : sbr._arrayBufferResponse._body._bodyBlob <;>
      cases ha : sbr._arrayBufferResponse._body._bodyArrayBuffer <;>
      cases hf : sbr._arrayBufferResponse._body._bodyFormData <;>
        simp [Body.text, Body.__consumed, h2, hs, hbb, ha, hf]
    refine ⟨by simp [StreamBlobResponse.text, Response.text, hset], ?_, ?_, ?_, ?_, ?_⟩
    · simp [StreamBlobResponse.text, Response.text]
    · simp [StreamBlobResponse.text, Response.text,
        Body.text_used _ _ hset]
    · simp [StreamBlobResponse.text, StreamBlobResponse.arrayBuffer,
        Response.text, Response.arrayBuffer, Body.arrayBuffer_used _ _ hset]
    · simp [StreamBlobResponse.text, StreamBlobResponse.json,
        Response.text, Response.json, Body.json_used parse _ _ hset]
    · simp [StreamBlobResponse.text, StreamBlobResponse.formData,
        Response.text, Response.formData, Body.formData_used dec _ _ hset]

/-- C1 witness: concrete instantiation on the `"Hello world!"` Body and the
sample `StreamBlobResponse`. -/
theorem C1_single_consumption_per_view_witness :
    bodyHello.bodyUsed = false ∧
    ((Body.invoke parse0 dec0 .text st0 bodyHello).2.1).bodyUsed = true ∧
    (runMethods parse0 dec0 (Body.invoke parse0 dec0 .text st0 bodyHello).1
      ((Body.invoke parse0 dec0 .text st0 bodyHello).2.1)
      [.arrayBuffer, .json]).2.2 =
      [.error .alreadyRead, .error .alreadyRead] := by
  have h := C1_single_consumption_per_view parse0 dec0 st0 bodyHello .text
    [.arrayBuffer, .json] sbrSampleSt.1 sbrSampleSt.2 rfl rfl rfl
  refine ⟨rfl, h.1.1, ?_⟩
  rw [h.1.2]
  rfl

/-- C1 counterexample: the claim as frozen is false on the code.  First,
the very first conversion call need not succeed: `text()` on a Body whose
variant is form data fails (with the form-data error, not the already-read
one).  Second, on a `StreamBlobResponse` a `blob()` call and a subsequent
`text()` call both succeed, because they consume different internal
Responses. -/
theorem C1_counterexample :
    (Body.text st0 (Body.create st0 (.formData [("a", "1")])).2).2.2 =
        .error .formDataAsText ∧
    (StreamBlobResponse.blob sbrSampleSt.1 sbrSampleSt.2).2.2 =
        .ok (⟨[104, 105], "text/plain"⟩ : BlobV) ∧
    (StreamBlobResponse.text (StreamBlobResponse.blob sbrSampleSt.1 sbrSampleSt.2).1
      (StreamBlobResponse.blob sbrSampleSt.1 sbrSampleSt.2).2.1).2.2 =
        .ok ("hi") := by
  refine ⟨rfl, rfl, rfl⟩

/-! ## C4 -/

/-- C4: `StreamBlobResponse.prototype.clone` always throws the TypeError
from `this._arrayBufferResponse.slice(0)` — here shown on a concrete,
fully unconsumed response — instead of producing the independent clone the
claim describes. -/
theorem C4_clone_of_unconsumed_throws :
    sbrSampleSt.2.bodyUsed = false ∧
    StreamBlobResponse.clone sbrSampleSt.1 sbrSampleSt.2 =
      .error .notAFunction := by
  exact ⟨rfl, rfl⟩

/-! ## C7 -/

/-- C7: `text()` on a Body built from `"Hello world!"` returns exactly that
string, but `arrayBuffer()` on the same freshly built Body rejects with the
already-read error: the method first marks the body consumed and then
awaits `this.blob()`, whose own consumption check now fails, so the
claimed byte materialization for text variants never happens. -/
theorem C7_text_ok_arrayBuffer_rejects :
    (Body.text st0 bodyHello).2.2 = .ok ("Hello world!") ∧
    (Body.arrayBuffer st0 bodyHello).2.2 = .error .alreadyRead := by
  exact ⟨rfl, rfl⟩

/-! ## C8 -/

/-- C8 counterexample: a Request constructed with method `"post"` keeps the
string verbatim — the claim's uppercase form does not hold. -/
theorem C8_counterexample :
    ((Request.create st0 (.url ("u")) { method := some ("post") }).map
        fun p => p.2.2.method) = .ok ("post") ∧
    ((Request.create st0 (.url ("u")) { method := some ("post") }).map
        fun p => p.2.2.method) ≠ .ok ("POST") := by
  refine ⟨rfl, fun hcontra => ?_⟩
  have h1 : ((Request.create st0 (.url ("u")) { method := some ("post") }).map
      fun p => p.2.2.method) = .ok ("post") := rfl
  rw [h1] at hcontra
  exact absurd (Except.ok.inj hcontra) (by decide)

/-- C8 (amended): with no method option the constructed Request's method is
the default `"GET"`; a supplied method string is stored verbatim, with no
uppercasing. -/
theorem C8_method_default_get_and_verbatim :
    (∀ (st : Store) (u : String),
      ((Request.create st (.url u) {}).map fun p => p.2.2.method) =
        .ok ("GET")) ∧
    (∀ (st : Store) (u m : String),
      ((Request.create st (.url u) { method := some m }).map
        fun p => p.2.2.method) = .ok m) := by
  exact ⟨fun st u => rfl, fun st u m => rfl⟩

/-- Body construction stores the raw init value unchanged in
`_bodyInit`. -/
theorem Body.create_init (st : Store) (i : BodyInit) :
    ((Body.create st i).2)._bodyInit = i := by
  cases i <;> simp [Body.create, BodyInit.truthy]
  all_goals (split <;> rfl)

/-! ## C3 -/

/-- C3 counterexample: constructing a Request from an unconsumed, bodiless
Request with no replacement body leaves the source unconsumed — its
`bodyUsed` stays `false` and a later `text()` on it still succeeds — where
the claim requires the source to become immediately and permanently
consumed. -/
theorem C3_counterexample :
    ((Request.create st0 (.url ("u")) {}).bind fun p =>
      (Request.create p.1 (.request p.2.2) {}).map fun q =>
        q.2.1.map fun rSrc =>
          (rSrc._body.bodyUsed, (Request.text q.1 rSrc).2.2)) =
      .ok (some (false, .ok (""))) := by
  rfl

/-- Body construction never yields a consumed Body. -/
theorem Body.create_unused (st : Store) (i : BodyInit) :
    ((Body.create st i).2).bodyUsed = false := by
  cases i <;> simp [Body.create, BodyInit.truthy]
  all_goals (split <;> rfl)

/-- Shape of a successful `finishCreate` on an instance headers slot and a
pre-built Body: the store and the handed-back source pass through
untouched and the new Request's Body is exactly the pre-built one. -/
theorem Request.finishCreate_proj (st : Store) (url : String)
    (m0 c0 : Option String) (sg0 : Option Signal) (hh : HeadersV) (nb : Body)
    (opts : RequestOptions) (src : Option Request)
    (hcheck : (nb._bodyInit.truthy &&
      (opts.method.getD (m0.getD ("GET")) == "GET" ||
        opts.method.getD (m0.getD ("GET")) == "HEAD")) = false)
    (hstream : nb._bodyReadableStream = none) :
    (Request.finishCreate st url m0 c0 sg0 (some (.inst hh)) (some nb) opts
        src).map (fun p => (p.1, p.2.1, p.2.2._body)) = .ok (st, src, nb) := by
  simp only [Request.finishCreate, hcheck, hstream, Bool.false_eq_true,
    if_false, Option.isSome_none]
  have hct : ("content-type").isEmpty = false := rfl
  cases hmime : nb._mimeType <;>
    cases hhas : hh.has ("content-type") <;>
    simp [hmime, hhas, HeadersV.set, validHeaderName, hct, pure, Except.pure,
      bind, Except.bind, Except.map]

/-- C3 (amended): constructing a Request from an already-consumed Request
fails with the already-read error; constructing from an unconsumed Request
with no explicit body rebuilds the new Request's Body from the source's
body-init value — so its content equals the source's — and, when that init
is truthy (a non-empty body), marks the source permanently consumed, with
every later conversion on the source failing with the already-read error;
when the source's body is empty/absent the source is returned unchanged
and stays unconsumed. -/
theorem C3_body_transfer :
    (∀ (st : Store) (r : Request) (opts : RequestOptions),
      r._body.bodyUsed = true →
      Request.create st (.request r) opts = .error .alreadyRead) ∧
    (∀ (st : Store) (r : Request) (hh : HeadersV),
      r._body.bodyUsed = false →
      r._body._bodyInit.truthy = true →
      (r.method == "GET" || r.method == "HEAD") = false →
      ((Body.create st r._body._bodyInit).2)._bodyReadableStream = none →
      r.headers = .inst hh →
      ((Request.create st (.request r) {}).map fun p =>
          p.2.1.map fun s => s._body.bodyUsed) = .ok (some true) ∧
      ((Request.create st (.request r) {}).map fun p => p.2.2._body) =
        .ok ((Body.create st r._body._bodyInit).2) ∧
      ((Body.create st r._body._bodyInit).2).bodyUsed = false ∧
      (∀ (parse : String → Except JsError JsValue)
          (dec : String → Except JsError String) (m : ConvMethod)
          (st2 : Store),
        (Body.invoke parse dec m st2
          { r._body with bodyUsed := true }).2.2 = .error .alreadyRead)) ∧
    (∀ (st : Store) (r : Request) (hh : HeadersV),
      r._body.bodyUsed = false →
      r._body._bodyInit.truthy = false →
      r.headers = .inst hh →
      ((Request.create st (.request r) {}).map fun p => p.2.1) =
        .ok (some r)) := by
  refine ⟨?_, ?_, ?_⟩
  · intro st r opts h
    simp [Request.create, h, bind, Except.bind, throw, throwThe,
      MonadExceptOf.throw]
  · intro st r hh hu ht hm hstream hhdr
    rcases hcb : Body.create st r._body._bodyInit with ⟨st1, nb⟩
    have hninit : nb._bodyInit = r._body._bodyInit := by
      have h2 := Body.create_init st r._body._bodyInit
      rw [hcb] at h2
      exact h2
    have hnused : nb.bodyUsed = false := by
      have h2 := Body.create_unused st r._body._bodyInit
      rw [hcb] at h2
      exact h2
    have hnstream : nb._bodyReadableStream = none := by
      rw [hcb] at hstream
      exact hstream
    have hcreate : Request.create st (.request r) {} =
        Request.finishCreate st1 r.url (some r.method) (some r.credentials)
          r.signal (some (.inst ⟨hh.entries⟩)) (some nb) {}
          (some { r with _body := { r._body with bodyUsed := true } }) := by
      simp [Request.create, hu, hhdr, ht, hcb,
        show BodyInit.undef.truthy = false from rfl]
    have hproj := Request.finishCreate_proj st1 r.url (some r.method)
      (some r.credentials) r.signal ⟨hh.entries⟩ nb {}
      (some { r with _body := { r._body with bodyUsed := true } })
      (by simp [hninit, ht, hm]) hnstream
    rw [← hcreate] at hproj
    rcases hX : Request.create st (.request r) {} with e | q
    · rw [hX] at hproj
      simp [Except.map] at hproj
    · rw [hX] at hproj
      simp only [Except.map, Except.ok.injEq, Prod.mk.injEq] at hproj
      obtain ⟨hq1, hq2, hq3⟩ := hproj
      refine ⟨?_, ?_, ?_, ?_⟩
      · simp [Except.map, hX, hq2]
      · simp only [hcb]
        simp [Except.map, hX, hq3]
      · simp only [hcb]
        exact hnused
      · intro parse dec m st2
        rw [Body.invoke_used parse dec m st2 _ rfl]
  · intro st r hh hu ht hhdr
    have hcreate : Request.create st (.request r) {} =
        Request.finishCreate st r.url (some r.method) (some r.credentials)
          r.signal (some (.inst ⟨hh.entries⟩)) none {} (some r) := by
      simp [Request.create, hu, hhdr, ht,
        show BodyInit.undef.truthy = false from rfl]
    have hbody : Body.create st (({} : RequestOptions)).body = (st,
        { bodyUsed := false, _bodyInit := .undef, _bodyText := some "" }) := by
      rfl
    have hproj : (Request.finishCreate st r.url (some r.method)
        (some r.credentials) r.signal (some (.inst ⟨hh.entries⟩)) none {}
        (some r)).map (fun p => (p.1, p.2.1, p.2.2._body)) =
        .ok (st, some r,
          { bodyUsed := false, _bodyInit := .undef, _bodyText := some "" }) := by
      simp only [Request.finishCreate, hbody]
      cases hhas : (⟨hh.entries⟩ : HeadersV).has ("content-type") <;>
        simp [hhas, pure, Except.pure, bind, Except.bind, Except.map,
          BodyInit.truthy]
    rw [← hcreate] at hproj
    rcases hX : Request.create st (.request r) {} with e | q
    · rw [hX] at hproj
      simp [Except.map] at hproj
    · rw [hX] at hproj
      simp only [Except.map, Except.ok.injEq, Prod.mk.injEq] at hproj
      obtain ⟨hq1, hq2, hq3⟩ := hproj
      simp [Except.map, hX, hq2]

/-- A fallback Request (also a convenient concrete bodiless GET Request). -/
def fallbackRequest : Request :=
  { url := "", method := "GET", credentials := "same-origin",
    headers := .inst ⟨[]⟩, signal := none, _body := fallbackBody }

/-- A concrete POST Request with the body `"I work out"`, kept with its
store. -/
def reqPostSrc : Store × Request :=
  match Request.create st0 (.url ("u"))
      { method := some ("POST"), body := .str ("I work out") } with
  | .ok p => (p.1, p.2.2)
  | .error _ => (st0, fallbackRequest)

/-- The same POST Request with its Body already consumed. -/
def reqPostUsed : Request :=
  { reqPostSrc.2 with _body := { reqPostSrc.2._body with bodyUsed := true } }

/-- C3 witness: the three cases of the amended claim at concrete
Requests — consumed source rejected, non-empty body transferred and the
source marked consumed, bodiless source returned unchanged. -/
theorem C3_body_transfer_witness :
    Request.create st0 (.request reqPostUsed) {} = .error .alreadyRead ∧
    ((Request.create reqPostSrc.1 (.request reqPostSrc.2) {}).map fun p =>
        p.2.1.map fun s => s._body.bodyUsed) = .ok (some true) ∧
    ((Request.create st0 (.request fallbackRequest) {}).map fun p => p.2.1) =
      .ok (some fallbackRequest) := by
  refine ⟨C3_body_transfer.1 st0 reqPostUsed {} rfl, ?_, ?_⟩
  · exact (C3_body_transfer.2.1 reqPostSrc.1 reqPostSrc.2
      ⟨[("content-type", "text/plain;charset=UTF-8")]⟩ rfl rfl rfl rfl
      rfl).1
  · exact C3_body_transfer.2.2 st0 fallbackRequest ⟨[]⟩ rfl rfl rfl

/-! ## C9 -/

/-- Constructing a Request whose (defaulted) method is GET or HEAD together
with a truthy body init fails with the body-not-allowed error, before any
headers processing. -/
theorem Request.create_url_get_body_error (st : Store) (u : String)
    (opts : RequestOptions)
    (hm : opts.method = none ∨ opts.method = some ("GET") ∨
      opts.method = some ("HEAD"))
    (hb : opts.body.truthy = true) :
    Request.create st (.url u) opts = .error .bodyNotAllowed := by
  rcases hcb : Body.create st opts.body with ⟨st1, nb⟩
  have hninit : nb._bodyInit = opts.body := by
    have h2 := Body.create_init st opts.body
    rw [hcb] at h2
    exact h2
  have htr : nb._bodyInit.truthy = true := by
    rw [hninit]
    exact hb
  have hmeth : opts.method.getD ("GET") = "GET" ∨
      opts.method.getD ("GET") = "HEAD" := by
    rcases hm with h | h | h <;> simp [h]
  rcases hmeth with h | h <;>
    simp [Request.create, Request.finishCreate, hcb, htr, h, bind,
      Except.bind, throw, throwThe, MonadExceptOf.throw]

/-- Constructing a Request from a url with an empty or absent body succeeds
whenever the headers option validates. -/
theorem Request.create_url_empty_body_ok (st : Store) (u : String)
    (opts : RequestOptions) (hb : opts.body.truthy = false)
    (hH : (HeadersV.create opts.headers).isOk = true) :
    (Request.create st (.url u) opts).isOk = true := by
  have hbody : Body.create st opts.body =
      (st, { bodyUsed := false, _bodyInit := opts.body,
             _bodyText := some "" }) := by
    rcases hi : opts.body with _ | s | b | f | s | i | ⟨i, o, l⟩ | c <;>
      rw [hi] at hb
    · rfl
    · have hs : s.isEmpty = true := by
        simpa [BodyInit.truthy] using hb
      simp [Body.create, BodyInit.truthy, hs]
    all_goals exact absurd hb (by simp [BodyInit.truthy])
  rcases hHc : HeadersV.create opts.headers with e | h
  · rw [hHc] at hH
    simp [Except.isOk, Except.toBool] at hH
  · simp only [Request.create, Request.finishCreate, hbody, hb]
    cases hhas : h.has ("content-type") <;>
      simp [hHc, hhas, bind, Except.bind, pure, Except.pure, Except.isOk,
        Except.toBool, BodyInit.truthy]

/-- C9: constructing a Request whose method is GET or HEAD (supplied or
defaulted) together with any non-empty (truthy) body fails synchronously,
inside construction, with the body-not-allowed error; with an empty or
absent body (and validating headers) construction succeeds. -/
theorem C9_get_head_body_check :
    (∀ (st : Store) (u : String) (opts : RequestOptions),
      (opts.method = none ∨ opts.method = some ("GET") ∨
        opts.method = some ("HEAD")) →
      opts.body.truthy = true →
      Request.create st (.url u) opts = .error .bodyNotAllowed) ∧
    (∀ (st : Store) (u : String) (opts : RequestOptions),
      opts.body.truthy = false →
      (HeadersV.create opts.headers).isOk = true →
      (Request.create st (.url u) opts).isOk = true) :=
  ⟨Request.create_url_get_body_error, Request.create_url_empty_body_ok⟩

/-- C9 witness: a GET with the body `"x"` is rejected with the
body-not-allowed error; a GET with no body constructs fine. -/
theorem C9_get_head_body_check_witness :
    Request.create st0 (.url ("u"))
      { method := some ("GET"), body := .str ("x") } =
      .error .bodyNotAllowed ∧
    (Request.create st0 (.url ("u")) { method := some ("GET") }).isOk =
      true :=
  ⟨C9_get_head_body_check.1 st0 ("u") _ (Or.inr (Or.inl rfl)) (by decide),
   C9_get_head_body_check.2 st0 ("u") _ (by decide) (by decide)⟩

/-! ## C2 -/

/-- No event handler ever assigns `_readableStreamController`. -/
theorem Fetch.step_rsc (s : FetchState) (e : NativeEvent) :
    ((Fetch.step s e).1)._readableStreamController =
      s._readableStreamController := by
  cases e <;> simp only [Fetch.step] <;> repeat' split
  all_goals rfl

/-- One event step can newly reject the outcome only with the timeout or
transport-failure error (given the invariant that
`_readableStreamController` is unassigned, under which the abort handler
throws before its reject line). -/
theorem Fetch.step_reject (s : FetchState) (e : NativeEvent) (err : JsError)
    (hrsc : s._readableStreamController = none)
    (h : ((Fetch.step s e).1)._deferredPromise = .rejected err) :
    s._deferredPromise = .rejected err ∨ err = .networkTimeout ∨
      err = .networkFailed := by
  cases e <;> simp only [Fetch.step] at h <;> repeat' split at h
  all_goals
    first
      | exact Or.inl h
      | (cases hp : s._deferredPromise <;>
          simp_all [PromiseState.resolveOnce, PromiseState.rejectOnce])

/-- Processing any event sequence can newly reject the outcome only with
the timeout or transport-failure error. -/
theorem Fetch.run_reject (evs : List NativeEvent) :
    ∀ (s : FetchState) (err : JsError),
      s._readableStreamController = none →
      (Fetch.run s evs)._deferredPromise = .rejected err →
      s._deferredPromise = .rejected err ∨ err = .networkTimeout ∨
        err = .networkFailed := by
  induction evs with
  | nil => exact fun s err _ h => Or.inl h
  | cons e evs ih =>
    intro s err hrsc h
    have hrsc2 : ((Fetch.step s e).1)._readableStreamController = none := by
      rw [Fetch.step_rsc]
      exact hrsc
    have hrun : (Fetch.run ((Fetch.step s e).1) evs)._deferredPromise =
        .rejected err := by
      simpa [Fetch.run, List.foldl] using h
    rcases ih ((Fetch.step s e).1) err hrsc2 hrun with h1 | h2
    · exact Fetch.step_reject s e err hrsc h1
    · exact Or.inr h2

/-- Full shape of a successful url-input Request construction with an
empty/absent body: store untouched, no source handed back, and the fields
as the constructor computes them. -/
theorem Request.create_url_empty_body_eq (st : Store) (u : String)
    (opts : RequestOptions) (hb : opts.body.truthy = false)
    (hh2 : HeadersV) (hH : HeadersV.create opts.headers = .ok hh2) :
    Request.create st (.url u) opts = .ok (st, none,
      { url := u, method := opts.method.getD ("GET"),
        credentials := opts.credentials.getD ("same-origin"),
        headers := .inst hh2, signal := opts.signal,
        _body := { bodyUsed := false, _bodyInit := opts.body,
                   _bodyText := some "" } }) := by
  have hbody : Body.create st opts.body =
      (st, { bodyUsed := false, _bodyInit := opts.body,
             _bodyText := some "" }) := by
    rcases hi : opts.body with _ | s | b | f | s | i | ⟨i, o, l⟩ | c <;>
      rw [hi] at hb
    · rfl
    · have hs : s.isEmpty = true := by
        simpa [BodyInit.truthy] using hb
      simp [Body.create, BodyInit.truthy, hs]
    all_goals exact absurd hb (by simp [BodyInit.truthy])
  cases hsig : opts.signal <;>
    cases hhas : hh2.has ("content-type") <;>
    simp [Request.create, Request.finishCreate, hbody, hb, hH, hhas, hsig,
      bind, Except.bind, pure, Except.pure, Option.orElse]

/-- A fetch whose Request construction succeeds and whose cancellation
signal is already in the aborted state fails at once with the abort error,
before contacting the transport. -/
theorem fetchInit_aborted (st : Store) (u : String) (opts : RequestOptions)
    (hsig : opts.signal = some ⟨true⟩) (hb : opts.body.truthy = false)
    (hh2 : HeadersV) (hH : HeadersV.create opts.headers = .ok hh2) :
    fetchInit st (.url u) opts = .error .abortError := by
  simp [fetchInit, Request.create_url_empty_body_eq st u opts hb hh2 hH,
    hsig, bind, Except.bind, pure, Except.pure, throw, throwThe,
    MonadExceptOf.throw]

/-- A successful `fetchInit` starts with a pending outcome and the
`_readableStreamController` field unassigned. -/
theorem fetchInit_start (st : Store) (resource : RequestInput)
    (opts : RequestOptions) (p : Store × FetchState)
    (h : fetchInit st resource opts = .ok p) :
    p.2._deferredPromise = .pending ∧
      p.2._readableStreamController = none := by
  simp only [fetchInit, bind, Except.bind, pure, Except.pure, throw,
    throwThe, MonadExceptOf.throw] at h
  repeat' split at h
  all_goals try cases h
  all_goals exact ⟨rfl, rfl⟩

/-- C2: the exchange outcome resolves with a Response carrying whatever
status the transport delivered — any status, 4xx and 5xx included — as
soon as the response-received event for the engine's request id arrives;
processing any sequence of events can reject a pending outcome only with
the timeout or network-failure error; a malformed request (GET/HEAD with a
non-empty body) fails with the body-not-allowed type error before any
event is processed; an already-aborted signal fails with the abort error;
and a freshly initialized exchange starts pending with
`_readableStreamController` unassigned. -/
theorem C2_outcome_discipline :
    (∀ (s : FetchState) (id status : Nat) (hdrs : List (String × String))
        (url : String),
      s._nativeNetworkSubscriptions.isEmpty = false →
      s._requestId = some id →
      s._deferredPromise = .pending →
      ((Fetch.step s (.response id status hdrs url)).1)._deferredPromise =
        .resolved ⟨status, hdrs, url⟩) ∧
    (∀ (s : FetchState) (evs : List NativeEvent) (err : JsError),
      s._readableStreamController = none →
      s._deferredPromise = .pending →
      (Fetch.run s evs)._deferredPromise = .rejected err →
      err = .networkTimeout ∨ err = .networkFailed) ∧
    (∀ (st : Store) (u : String) (opts : RequestOptions),
      (opts.method = none ∨ opts.method = some ("GET") ∨
        opts.method = some ("HEAD")) →
      opts.body.truthy = true →
      fetchInit st (.url u) opts = .error .bodyNotAllowed) ∧
    (∀ (st : Store) (u : String) (opts : RequestOptions) (hh2 : HeadersV),
      opts.signal = some ⟨true⟩ →
      opts.body.truthy = false →
      HeadersV.create opts.headers = .ok hh2 →
      fetchInit st (.url u) opts = .error .abortError) ∧
    (∀ (st : Store) (resource : RequestInput) (opts : RequestOptions)
        (p : Store × FetchState),
      fetchInit st resource opts = .ok p →
      p.2._deferredPromise = .pending ∧
        p.2._readableStreamController = none) := by
  refine ⟨?_, ?_, ?_, ?_, fetchInit_start⟩
  · intro s id status hdrs url hsub hid hpend
    simp [Fetch.step, hsub, hid, hpend, PromiseState.resolveOnce]
  · intro s evs err hrsc hpend h
    rcases Fetch.run_reject evs s err hrsc h with h1 | h2
    · rw [hpend] at h1
      cases h1
    · exact h2
  · intro st u opts hm hb
    simp [fetchInit, Request.create_url_get_body_error st u opts hm hb,
      bind, Except.bind]
  · intro st u opts hh2 hsig hb hH
    exact fetchInit_aborted st u opts hsig hb hh2 hH

/-- A concrete mid-flight engine state: headers already received (stream
controller live), outcome still pending. -/
def engineSample : FetchState :=
  { _nativeNetworkSubscriptions := nativeEventNames,
    _nativeResponseType := "blob", _nativeRequestHeaders := [],
    _nativeResponse := none, _responseTextOffset := 0, _requestId := some 1,
    _response := none, _streamController := some ⟨[], false, none⟩,
    _readableStreamController := none, _deferredPromise := .pending,
    _request := fallbackRequest, _abortListenerAttached := false }

/-- The engine state a plain `fetch("u")` starts in. -/
def fetchSampleState : Store × FetchState :=
  (st0,
    { _nativeNetworkSubscriptions := nativeEventNames,
      _nativeResponseType := "blob", _nativeRequestHeaders := [],
      _nativeResponse := none, _responseTextOffset := 0, _requestId := none,
      _response := none, _streamController := none,
      _readableStreamController := none, _deferredPromise := .pending,
      _request := { url := "u", method := "GET",
                    credentials := "same-origin", headers := .inst ⟨[]⟩,
                    signal := none,
                    _body := { bodyUsed := false, _bodyInit := .undef,
                               _bodyText := some "" } },
      _abortListenerAttached := false })

/-- C2 witness: a 500 response still resolves the outcome; a transport
error trace rejects only with the network-failure error; a GET with a body
and an already-aborted signal are the synchronous failures; a fresh
exchange starts pending. -/
theorem C2_outcome_discipline_witness :
    ((Fetch.step engineSample (.response 1 500 [] (""))).1)._deferredPromise =
      .resolved ⟨500, [], ""⟩ ∧
    (JsError.networkFailed = .networkTimeout ∨
      JsError.networkFailed = .networkFailed) ∧
    fetchInit st0 (.url ("u"))
      { method := some ("GET"), body := .str ("x") } =
      .error .bodyNotAllowed ∧
    fetchInit st0 (.url ("u")) { signal := some ⟨true⟩ } =
      .error .abortError ∧
    (fetchSampleState.2._deferredPromise = .pending ∧
      fetchSampleState.2._readableStreamController = none) := by
  refine ⟨?_, ?_, ?_, ?_, ?_⟩
  · exact C2_outcome_discipline.1 engineSample 1 500 [] ("") (by decide)
      rfl rfl
  · exact C2_outcome_discipline.2.1 engineSample
      [.complete 1 (some ("boom")) false] .networkFailed rfl rfl (by rfl)
  · exact C2_outcome_discipline.2.2.1 st0 ("u") _ (Or.inr (Or.inl rfl))
      (by decide)
  · exact C2_outcome_discipline.2.2.2.1 st0 ("u") _ ⟨[]⟩ rfl rfl rfl
  · exact C2_outcome_discipline.2.2.2.2 st0 (.url ("u")) {} fetchSampleState
      rfl

/-! ## C5 -/

/-- A fetch just sent with a live (not yet aborted) signal. -/
def c5Flight : Except JsError (Store × FetchState) :=
  fetchInit st0 (.url ("/slow")) { signal := some ⟨false⟩ }

/-- C5: firing the cancellation signal mid-flight runs `__abort`, which
clears the subscriptions and then calls `.error` on the never-assigned
`_readableStreamController` — the handler throws a TypeError and the line
that would reject the outcome with the abort error is never reached, so
the outcome stays pending instead of rejecting. -/
theorem C5_abort_throws_and_never_rejects :
    (c5Flight.map fun p =>
      (((Fetch.step (Fetch.step p.2 (.created 1)).1 .abortSignal).1)._deferredPromise,
       (Fetch.step (Fetch.step p.2 (.created 1)).1 .abortSignal).2,
       ((Fetch.step (Fetch.step p.2 (.created 1)).1 .abortSignal).1)._nativeNetworkSubscriptions)) =
      .ok (.pending, some .notAFunction, []) := by
  rfl

/-! ## C6 -/

/-- Each listed text extends the previous one (the transport redelivers the
cumulative buffer), starting from `p`. -/
def prefixChainFrom (p : List Char) : List String → Bool
  | [] => true
  | t :: ts => p.isPrefixOf t.data && prefixChainFrom t.data ts

/-- The incremental-data events for one request id carrying the cumulative
texts in order. -/
def incrEvents (id : Nat) (texts : List String) : List NativeEvent :=
  texts.map fun t => .incremental id t 0 0

/-- The last cumulative text of the sequence (as code points), `p` when the
sequence is empty. -/
def lastTextD (texts : List String) (p : List Char) : List Char :=
  (texts.map String.data).getLastD p

/-- UTF-8 encoding distributes over concatenation of code-point lists. -/
theorem utf8EncodeList_append (a b : List Char) :
    utf8EncodeList (a ++ b) = utf8EncodeList a ++ utf8EncodeList b := by
  simp [utf8EncodeList]

/-- Gluing encoded suffixes along a chain of extensions: encoding the part
of `t` past `p` and then the part of `l` past `t` is encoding the part of
`l` past `p`. -/
theorem utf8_drop_chain (p t l : List Char) (h1 : p <+: t) (h2 : t <+: l) :
    utf8EncodeList (t.drop p.length) ++ utf8EncodeList (l.drop t.length) =
      utf8EncodeList (l.drop p.length) := by
  obtain ⟨r, rfl⟩ := h2
  obtain ⟨q, rfl⟩ := h1
  rw [List.drop_left, List.drop_left, List.append_assoc, List.drop_left,
    utf8EncodeList_append]

/-- Invariant run of the incremental handler: starting with the offset at
the end of `prev` and the chunks enqueued so far, a chain of cumulative
texts enqueues exactly the successive new suffixes, so the flattened
chunks grow by the encoding of the final text past `prev`. -/
theorem Fetch.run_incremental (id : Nat) :
    ∀ (texts : List String) (s : FetchState) (prev : List Char)
      (c : StreamState),
      s._nativeNetworkSubscriptions.isEmpty = false →
      s._requestId = some id →
      s._streamController = some c →
      s._responseTextOffset = prev.length →
      prefixChainFrom prev texts = true →
      ∃ c2, (Fetch.run s (incrEvents id texts))._streamController = some c2 ∧
        c2.chunks.flatten = c.chunks.flatten ++
          utf8EncodeList ((lastTextD texts prev).drop prev.length) ∧
        c2.closed = c.closed ∧ c2.errored = c.errored ∧
        (Fetch.run s (incrEvents id texts))._responseTextOffset =
          (lastTextD texts prev).length ∧
        prev <+: lastTextD texts prev := by
  intro texts
  induction texts with
  | nil =>
    intro s prev c hsub hid hctrl hoff _
    exact ⟨c, hctrl, by simp [lastTextD, utf8EncodeList], rfl, rfl,
      by simpa [lastTextD] using hoff, by simp [lastTextD]⟩
  | cons t ts ih =>
    intro s prev c hsub hid hctrl hoff hchain
    have hpt : prev <+: t.data := by
      have := (Bool.and_eq_true _ _).mp hchain
      exact List.isPrefixOf_iff_prefix.mp this.1
    have hch : prefixChainFrom t.data ts = true :=
      ((Bool.and_eq_true _ _).mp hchain).2
    have hsub' : s._nativeNetworkSubscriptions ≠ [] := by
      intro hc
      rw [hc] at hsub
      simp at hsub
    have hstep : (Fetch.step s (.incremental id t 0 0)).1 =
        { s with _responseTextOffset := t.data.length,
                 _streamController := some { c with chunks :=
                   c.chunks ++ [utf8EncodeList (t.data.drop prev.length)] } } := by
      simp [Fetch.step, List.isEmpty_iff, hsub', hid, hctrl, hoff]
    have hrun : Fetch.run s (incrEvents id (t :: ts)) =
        Fetch.run ((Fetch.step s (.incremental id t 0 0)).1)
          (incrEvents id ts) := by
      simp [incrEvents, Fetch.run, List.foldl]
    obtain ⟨c2, hc2, hflat, hclosed, herr, hoff2, hpre⟩ :=
      ih ((Fetch.step s (.incremental id t 0 0)).1) t.data
        { c with chunks := c.chunks ++ [utf8EncodeList (t.data.drop prev.length)] }
        (by rw [hstep]; exact hsub) (by rw [hstep]; exact hid)
        (by rw [hstep]) (by rw [hstep]) hch
    have hlast : lastTextD (t :: ts) prev = lastTextD ts t.data := by
      simp only [lastTextD, List.map_cons, List.getLastD_cons]
    refine ⟨c2, by rw [hrun]; exact hc2, ?_, by rw [hclosed], by rw [herr],
      ?_, ?_⟩
    · rw [hflat, hlast]
      simp only [List.flatten_append, List.flatten_cons, List.flatten_nil,
        List.append_nil, List.append_assoc]
      rw [utf8_drop_chain prev t.data (lastTextD ts t.data) hpt hpre]
    · rw [hrun, hoff2, hlast]
    · rw [hlast]
      exact hpt.trans hpre

/-- C6: in incremental text mode, for an in-order, nonempty chain of
cumulative texts (each a prefix-extension of the previous), the engine —
starting at offset 0 — enqueues per event exactly the UTF-8 encoding of
the new suffix past the running offset, so the concatenation of all
enqueued chunks equals the UTF-8 encoding of the final cumulative text. -/
theorem C6_incremental_chunks_concat (s : FetchState) (id : Nat)
    (c : StreamState) (t0 : String) (ts : List String)
    (hsub : s._nativeNetworkSubscriptions.isEmpty = false)
    (hid : s._requestId = some id)
    (hctrl : s._streamController = some c)
    (hoff : s._responseTextOffset = 0)
    (hchain : prefixChainFrom [] (t0 :: ts) = true) :
    ∃ c2, (Fetch.run s (incrEvents id (t0 :: ts)))._streamController =
        some c2 ∧
      c2.chunks.flatten =
        c.chunks.flatten ++ utf8EncodeList (lastTextD (t0 :: ts) []) ∧
      c2.closed = c.closed ∧ c2.errored = c.errored := by
  obtain ⟨c2, h1, h2, h3, h4, _, _⟩ :=
    Fetch.run_incremental id (t0 :: ts) s [] c hsub hid hctrl
      (by simpa using hoff) hchain
  exact ⟨c2, h1, by simpa using h2, h3, h4⟩

/-- C6 witness: the chain `"ab"`, `"abcd"` enqueues the encodings of
`"ab"` then `"cd"`, flattening to the encoding of `"abcd"`. -/
theorem C6_incremental_chunks_concat_witness :
    ∃ c2, (Fetch.run engineSample
        (incrEvents 1 [("ab"), ("abcd")]))._streamController = some c2 ∧
      c2.chunks.flatten = [] ++ utf8EncodeList (lastTextD [("ab"), ("abcd")] []) ∧
      c2.closed = false ∧ c2.errored = none := by
  exact C6_incremental_chunks_concat engineSample 1 ⟨[], false, none⟩
    ("ab") [("abcd")] (by decide) rfl rfl rfl (by decide)

/-! ## C10 -/

/-- Reading a freshly allocated buffer yields the allocated bytes. -/
theorem Store.read_alloc_self (st : Store) (b : Bytes) :
    (st.alloc b).1.read (st.alloc b).2 = b := by
  simp [Store.alloc, Store.read, List.getD, List.getElem?_concat_length]

/-- Writing one buffer never changes what another buffer reads as. -/
theorem Store.read_write_ne (st : Store) (i j : Nat) (b : Bytes)
    (h : i ≠ j) : (st.write i b).read j = st.read j := by
  simp only [Store.write, Store.read, List.getD, List.get?_eq_getElem?]
  rw [List.getElem?_set_ne h]

/-- C10: a Body built from an `ArrayBuffer` (or a typed-array view) copies
the bytes at construction.  Mutating the caller's buffer afterwards changes
neither what `text()` decodes nor what `arrayBuffer()` returns, and the
buffer `arrayBuffer()` hands back is a different allocation from the one
the caller passed in. -/
theorem C10_buffer_copied_at_construction (st : Store) (id : Nat)
    (mb : Bytes) (off len : Nat) (hid : id < st.bufs.length)
    (hrange : off + len ≤ (st.read id).length) :
    ((Body.text ((Body.create st (.arrayBuffer id)).1.write id mb)
        (Body.create st (.arrayBuffer id)).2).2.2 =
      .ok (readArrayAsText (st.read id)) ∧
     ∃ rid,
      (Body.arrayBuffer ((Body.create st (.arrayBuffer id)).1.write id mb)
          (Body.create st (.arrayBuffer id)).2).2.2 = .ok (.whole rid) ∧
      rid ≠ id ∧
      (Body.arrayBuffer ((Body.create st (.arrayBuffer id)).1.write id mb)
          (Body.create st (.arrayBuffer id)).2).1.read rid = st.read id) ∧
    ((Body.text ((Body.create st (.view id off len)).1.write id mb)
        (Body.create st (.view id off len)).2).2.2 =
      .ok (readArrayAsText (((st.read id).drop off).take len)) ∧
     ∃ rid,
      (Body.arrayBuffer ((Body.create st (.view id off len)).1.write id mb)
          (Body.create st (.view id off len)).2).2.2 = .ok (.whole rid) ∧
      rid ≠ id ∧
      (Body.arrayBuffer ((Body.create st (.view id off len)).1.write id mb)
          (Body.create st (.view id off len)).2).1.read rid =
        ((st.read id).drop off).take len) := by
  have hfresh : st.bufs.length ≠ id := fun hc => absurd hid (by omega)
  have hreadW : (((⟨st.bufs ++ [st.read id]⟩ : Store)).write id mb).read
      st.bufs.length = st.read id := by
    rw [Store.read_write_ne _ _ _ _ (fun hc => hfresh hc.symm)]
    exact Store.read_alloc_self st (st.read id)
  have hv : (((st.read id).drop off).take len).length = len := by
    simp only [List.length_take, List.length_drop]
    omega
  have hreadWv : (((⟨st.bufs ++ [((st.read id).drop off).take len]⟩ :
      Store)).write id mb).read st.bufs.length =
      ((st.read id).drop off).take len := by
    rw [Store.read_write_ne _ _ _ _ (fun hc => hfresh hc.symm)]
    exact Store.read_alloc_self st _
  have hreadWv2 : ((⟨(st.bufs ++ [((st.read id).drop off).take len]).set id
      mb⟩ : Store)).read st.bufs.length =
      ((st.read id).drop off).take len := hreadWv
  have hlen2 : ((st.bufs ++ [((st.read id).drop off).take len]).set id
      mb).length = st.bufs.length + 1 := by
    simp [List.length_set]
  have hfinal : ((⟨((st.bufs ++ [((st.read id).drop off).take len]).set id
      mb) ++ [((st.read id).drop off).take len]⟩ : Store)).read
      (st.bufs.length + 1) = ((st.read id).drop off).take len := by
    have h2 := Store.read_alloc_self
      (⟨(st.bufs ++ [((st.read id).drop off).take len]).set id mb⟩ : Store)
      (((st.read id).drop off).take len)
    simpa [Store.alloc, hlen2] using h2
  refine ⟨⟨?_, st.bufs.length, ?_, hfresh.symm ∘ Eq.symm, ?_⟩,
    ?_, st.bufs.length + 1, ?_, by omega, ?_⟩
  · simp [Body.create, BodyInit.truthy, Body.text, Body.__consumed,
      BufRef.bytes, Store.alloc, hreadW]
  · simp [Body.create, BodyInit.truthy, Body.arrayBuffer, Body.__consumed,
      Store.alloc]
  · simp [Body.create, BodyInit.truthy, Body.arrayBuffer, Body.__consumed,
      Store.alloc, hreadW]
  · simp [Body.create, BodyInit.truthy, Body.text, Body.__consumed,
      BufRef.bytes, Store.alloc, hreadWv, List.take_of_length_le hv.le]
  · simp [Body.create, BodyInit.truthy, Body.arrayBuffer, Body.__consumed,
      Store.alloc, Store.write, hlen2]
  · simp [Body.create, BodyInit.truthy, Body.arrayBuffer, Body.__consumed,
      BufRef.bytes, Store.alloc, Store.write, hreadWv2,
      List.take_of_length_le hv.le, hlen2, hfinal]

/-- C10 witness: with the four-byte buffer `[1, 2, 3, 4]` overwritten by
`[9, 9, 9, 9]` after construction, `text()` still decodes the original
bytes — the whole buffer for an `ArrayBuffer` body, the viewed range
`[2, 3]` for a view at offset 1 of length 2. -/
theorem C10_buffer_copied_at_construction_witness :
    (Body.text ((Body.create (⟨[[1, 2, 3, 4]]⟩ : Store)
          (.arrayBuffer 0)).1.write 0 [9, 9, 9, 9])
        (Body.create (⟨[[1, 2, 3, 4]]⟩ : Store) (.arrayBuffer 0)).2).2.2 =
      .ok (readArrayAsText [1, 2, 3, 4]) ∧
    (Body.text ((Body.create (⟨[[1, 2, 3, 4]]⟩ : Store)
          (.view 0 1 2)).1.write 0 [9, 9, 9, 9])
        (Body.create (⟨[[1, 2, 3, 4]]⟩ : Store) (.view 0 1 2)).2).2.2 =
      .ok (readArrayAsText [2, 3]) := by
  have h := C10_buffer_copied_at_construction ⟨[[1, 2, 3, 4]]⟩ 0
    [9, 9, 9, 9] 1 2 (by decide) (by decide)
  exact ⟨h.1.1, h.2.1⟩

end RNFetch
